import Mathlib

/-!
Shallow embedding of the retrying remote-call orchestration layer of the
trendlens-ai front end (src/services/geminiService.ts and src/utils/errors.ts),
together with theorems about its retry, backoff, classification and
response-normalization behavior.

The remote generative service is modelled as an explicit function parameter
indexed by the attempt number; side effects of one orchestrator invocation
(thunk calls, onRetry callbacks, backoff sleeps) are recorded in an event
trace.  JavaScript platform primitives used by the source (String.includes,
String.toLowerCase, String.trim, JSON.parse, JSON.stringify) are embedded as
executable Lean functions. The instructional prompt texts sent to the remote
service are abbreviated: the remote is abstract, so their content is never
inspected by any property.
-/

/-- Embedding of JavaScript String.prototype.includes restricted to the
leading position: true when the pattern is an initial segment of the text. -/
def charsLeadWith : List Char → List Char → Bool
  | [], _ => true
  | _ :: _, [] => false
  | p :: ps, c :: cs => p == c && charsLeadWith ps cs

/-- True when the pattern occurs contiguously anywhere in the text. -/
def charsContain (pat : List Char) : List Char → Bool
  | [] => pat.isEmpty
  | c :: cs => charsLeadWith pat (c :: cs) || charsContain pat cs

/-- Embedding of JavaScript `s.includes(pat)`. -/
def strIncludes (s pat : String) : Bool :=
  charsContain pat.data s.data

/-- ASCII lower-casing of one character, as JavaScript toLowerCase acts on the
ASCII range (all classification substrings in the source are ASCII). -/
def asciiLowerChar (c : Char) : Char :=
  if 65 ≤ c.toNat ∧ c.toNat ≤ 90 then Char.ofNat (c.toNat + 32) else c

/-- Embedding of JavaScript `s.toLowerCase()` on the ASCII range. -/
def jsToLower (s : String) : String :=
  String.mk (s.data.map asciiLowerChar)

/-- Classification predicate from callGeminiWithRetry: the lower-cased failure
message marks a rate-limit failure. -/
def isRateLimitMsg (errorMessage : String) : Bool :=
  strIncludes errorMessage "429" || strIncludes errorMessage "quota" ||
    strIncludes errorMessage "resource_exhausted"

/-- Classification predicate from callGeminiWithRetry: the lower-cased failure
message marks a server-error failure. -/
def isServerErrorMsg (errorMessage : String) : Bool :=
  strIncludes errorMessage "500" || strIncludes errorMessage "503" ||
    strIncludes errorMessage "service unavailable"

/-- Classification predicate from callGeminiWithRetry: the lower-cased failure
message marks an invalid-input failure. -/
def isInvalidInputMsg (errorMessage : String) : Bool :=
  strIncludes errorMessage "400" || strIncludes errorMessage "invalid argument"

/-- Embedding of the error classes of src/utils/errors.ts: each carries the
runtime `name` tag set by its constructor and a human-readable message. -/
structure ApiError where
  name : String
  message : String
deriving DecidableEq, Repr

/-- Default message of the RateLimitError class. -/
def rateLimitDefaultMessage : String :=
  "API request limit reached. This can happen on the free tier. Please wait a moment and try again."

/-- Default message of the InvalidInputError class. -/
def invalidInputDefaultMessage : String :=
  "There was an issue with one of the uploaded images. Please try using a different, clear image."

/-- Default message of the ServerError class. -/
def serverErrorDefaultMessage : String :=
  "The AI service is currently unavailable. Please try again later."

/-- Construction `new ApiError(message)`. -/
def apiError (message : String) : ApiError := ⟨"ApiError", message⟩

/-- Construction `new RateLimitError()` with its default message. -/
def rateLimitError : ApiError := ⟨"RateLimitError", rateLimitDefaultMessage⟩

/-- Construction `new InvalidInputError(message)`. -/
def invalidInputError (message : String) : ApiError := ⟨"InvalidInputError", message⟩

/-- Construction `new ServerError()` with its default message. -/
def serverError : ApiError := ⟨"ServerError", serverErrorDefaultMessage⟩

/-- Message of the InvalidInputError thrown inside callGeminiWithRetry. -/
def invalidImagesRetryMessage : String :=
  "There was an issue with one of the uploaded images. Please try using a different, clear image in a common format (PNG, JPG, WEBP)."

/-- Observable events of one orchestrator invocation: the k-th invocation of
the operation thunk, an onRetry callback with the 1-based attempt index, and a
requested backoff sleep in milliseconds. -/
inductive RetryEvent where
  | call (k : Nat)
  | onRetry (attempt : Nat)
  | sleepMs (ms : Nat)
deriving DecidableEq, Repr

/-- MAX_RETRIES constant of callGeminiWithRetry: initial call + 2 retries. -/
def MAX_RETRIES : Nat := 3

/-- Loop body of callGeminiWithRetry: `attempt` is the current 1-based attempt,
`fuel` the number of loop iterations still permitted by the `for` bound
(`MAX_RETRIES - attempt + 1` at entry).  The thunk is a function from the
attempt index to its outcome on that invocation; the returned trace records
thunk calls, onRetry callbacks and sleeps in order. -/
def retryGo {α : Type} (apiCall : Nat → Except String α) :
    Nat → Nat → List RetryEvent × Except ApiError α
  | _, 0 =>
    ([], Except.error (apiError "An unknown error occurred after multiple retries."))
  | attempt, Nat.succ fuel =>
    match apiCall attempt with
    | Except.ok v => ([RetryEvent.call attempt], Except.ok v)
    | Except.error msg =>
      let errorMessage := jsToLower msg
      let isRateLimitError := isRateLimitMsg errorMessage
      let isServerError := isServerErrorMsg errorMessage
      let isInvalidInputError := isInvalidInputMsg errorMessage
      if isInvalidInputError then
        ([RetryEvent.call attempt], Except.error (invalidInputError invalidImagesRetryMessage))
      else if (isRateLimitError || isServerError) && decide (attempt < MAX_RETRIES) then
        let delay := 1000 * 2 ^ (attempt - 1)
        let rest := retryGo apiCall (attempt + 1) fuel
        (RetryEvent.call attempt :: RetryEvent.onRetry attempt ::
          RetryEvent.sleepMs delay :: rest.1, rest.2)
      else if isRateLimitError then
        ([RetryEvent.call attempt], Except.error rateLimitError)
      else if isServerError then
        ([RetryEvent.call attempt], Except.error serverError)
      else
        ([RetryEvent.call attempt], Except.error (apiError msg))

/-- Embedding of callGeminiWithRetry: run the loop from attempt 1 with the
`for` bound allowing MAX_RETRIES iterations. -/
def callGeminiWithRetry {α : Type} (apiCall : Nat → Except String α) :
    List RetryEvent × Except ApiError α :=
  retryGo apiCall 1 MAX_RETRIES

/-- Number of thunk invocations recorded in a trace. -/
def countCalls : List RetryEvent → Nat
  | [] => 0
  | RetryEvent.call _ :: rest => countCalls rest + 1
  | _ :: rest => countCalls rest

/-- Arguments passed to onRetry, in order of occurrence. -/
def onRetrySeq : List RetryEvent → List Nat
  | [] => []
  | RetryEvent.onRetry k :: rest => k :: onRetrySeq rest
  | _ :: rest => onRetrySeq rest

/-- Sleep durations requested, in order of occurrence. -/
def sleepSeq : List RetryEvent → List Nat
  | [] => []
  | RetryEvent.sleepMs d :: rest => d :: sleepSeq rest
  | _ :: rest => sleepSeq rest

/-- Checks that in a trace every onRetry k is immediately followed by a sleep
of exactly 1000 * 2 ^ (k - 1) milliseconds and every sleep is immediately
preceded by such an onRetry. -/
def retryPairsOk : List RetryEvent → Bool
  | [] => true
  | RetryEvent.call _ :: rest => retryPairsOk rest
  | RetryEvent.onRetry k :: RetryEvent.sleepMs d :: rest =>
    (d == 1000 * 2 ^ (k - 1)) && retryPairsOk rest
  | RetryEvent.onRetry _ :: _ => false
  | RetryEvent.sleepMs _ :: _ => false

/-- JSON values as produced by JSON.parse; a number is kept as a decimal
mantissa and exponent (value m * 10 ^ e), which is exact on the integer
payloads the analysis schema declares. -/
inductive Json where
  | null
  | bool (b : Bool)
  | num (m : Int) (e : Int)
  | str (s : String)
  | arr (elems : List Json)
  | obj (fields : List (String × Json))

/-- JSON whitespace characters. -/
def jsonWs (c : Char) : Bool :=
  c == ' ' || c == '\t' || c == '\n' || c == '\r'

/-- Drops leading JSON whitespace. -/
def skipWs : List Char → List Char
  | [] => []
  | c :: cs => if jsonWs c then skipWs cs else c :: cs

/-- Value of a decimal digit character, if it is one. -/
def digitVal (c : Char) : Option Nat :=
  if 48 ≤ c.toNat ∧ c.toNat ≤ 57 then some (c.toNat - 48) else none

/-- Value of a hexadecimal digit character, if it is one. -/
def hexDigitVal (c : Char) : Option Nat :=
  if 48 ≤ c.toNat ∧ c.toNat ≤ 57 then some (c.toNat - 48)
  else if 97 ≤ c.toNat ∧ c.toNat ≤ 102 then some (c.toNat - 87)
  else if 65 ≤ c.toNat ∧ c.toNat ≤ 70 then some (c.toNat - 55)
  else none

/-- Splits off the maximal run of leading decimal digits. -/
def takeDigits : List Char → List Nat × List Char
  | [] => ([], [])
  | c :: cs =>
    match digitVal c with
    | some d => let r := takeDigits cs; (d :: r.1, r.2)
    | none => ([], c :: cs)

/-- Value of a digit run read most-significant first. -/
def digitsToNat (ds : List Nat) : Nat :=
  ds.foldl (fun a d => a * 10 + d) 0

/-- Parses the body of a JSON string after the opening quote, handling the
escape sequences JSON.parse accepts; returns the decoded characters and the
input after the closing quote. -/
def parseStringBody : Nat → List Char → Except String (List Char × List Char)
  | 0, _ => Except.error "Unterminated string in JSON"
  | _, [] => Except.error "Unterminated string in JSON"
  | Nat.succ fuel, c :: cs =>
    if c == '"' then Except.ok ([], cs)
    else if c.toNat < 32 then Except.error "Bad control character in JSON string"
    else if c == '\\' then
      match cs with
      | [] => Except.error "Unterminated string in JSON"
      | e :: cs2 =>
        let decoded : Except String (Char × List Char) :=
          if e == '"' then Except.ok ('"', cs2)
          else if e == '\\' then Except.ok ('\\', cs2)
          else if e == '/' then Except.ok ('/', cs2)
          else if e == 'b' then Except.ok (Char.ofNat 8, cs2)
          else if e == 'f' then Except.ok (Char.ofNat 12, cs2)
          else if e == 'n' then Except.ok ('\n', cs2)
          else if e == 'r' then Except.ok ('\r', cs2)
          else if e == 't' then Except.ok ('\t', cs2)
          else if e == 'u' then
            match cs2 with
            | h1 :: h2 :: h3 :: h4 :: cs3 =>
              match hexDigitVal h1, hexDigitVal h2, hexDigitVal h3, hexDigitVal h4 with
              | some v1, some v2, some v3, some v4 =>
                Except.ok (Char.ofNat (((v1 * 16 + v2) * 16 + v3) * 16 + v4), cs3)
              | _, _, _, _ => Except.error "Bad Unicode escape in JSON string"
            | _ => Except.error "Bad Unicode escape in JSON string"
          else Except.error "Bad escaped character in JSON string"
        match decoded with
        | Except.error msg => Except.error msg
        | Except.ok (d, rest) =>
          match parseStringBody fuel rest with
          | Except.error msg => Except.error msg
          | Except.ok (body, rest2) => Except.ok (d :: body, rest2)
    else
      match parseStringBody fuel cs with
      | Except.error msg => Except.error msg
      | Except.ok (body, rest) => Except.ok (c :: body, rest)

/-- Parses a JSON number token at the head of the input. -/
def parseNumber (s : List Char) : Except String (Json × List Char) :=
  let signed : Bool × List Char :=
    match s with
    | c :: cs => if c == '-' then (true, cs) else (false, s)
    | [] => (false, [])
  match takeDigits signed.2 with
  | ([], _) => Except.error "Unexpected token in JSON"
  | (intDigits, afterInt) =>
    if intDigits.headD 0 = 0 ∧ intDigits.length > 1 then
      Except.error "Unexpected number in JSON"
    else
      let fracPart : Option (List Nat × List Char) :=
        match afterInt with
        | '.' :: afterDot =>
          match takeDigits afterDot with
          | ([], _) => none
          | (ds, rest) => some (ds, rest)
        | _ => some ([], afterInt)
      match fracPart with
      | none => Except.error "Unexpected number in JSON"
      | some (fracDigits, afterFrac) =>
        let expPart : Option (Int × List Char) :=
          match afterFrac with
          | c :: afterE =>
            if c == 'e' || c == 'E' then
              let esigned : Bool × List Char :=
                match afterE with
                | c2 :: cs2 =>
                  if c2 == '-' then (true, cs2)
                  else if c2 == '+' then (false, cs2)
                  else (false, afterE)
                | [] => (false, [])
              match takeDigits esigned.2 with
              | ([], _) => none
              | (eds, rest) =>
                let ev : Int := Int.ofNat (digitsToNat eds)
                some (if esigned.1 then -ev else ev, rest)
            else some (0, afterFrac)
          | [] => some (0, [])
        match expPart with
        | none => Except.error "Unexpected number in JSON"
        | some (expVal, rest) =>
          let mag : Nat := digitsToNat (intDigits ++ fracDigits)
          let m : Int := if signed.1 then -(Int.ofNat mag) else Int.ofNat mag
          Except.ok (Json.num m (expVal - Int.ofNat fracDigits.length), rest)

/-- Opening brace character of a JSON object. -/
def braceL : Char := Char.ofNat 123

/-- Closing brace character of a JSON object. -/
def braceR : Char := Char.ofNat 125

mutual

/-- Parses one JSON value at the head of the input (after optional
whitespace), with fuel bounding the recursion. -/
def parseValue : Nat → List Char → Except String (Json × List Char)
  | 0, _ => Except.error "JSON input too deeply nested"
  | Nat.succ fuel, s =>
    match skipWs s with
    | [] => Except.error "Unexpected end of JSON input"
    | c :: cs =>
      if c == 'n' then
        if charsLeadWith ['u', 'l', 'l'] cs then Except.ok (Json.null, cs.drop 3)
        else Except.error "Unexpected token in JSON"
      else if c == 't' then
        if charsLeadWith ['r', 'u', 'e'] cs then Except.ok (Json.bool true, cs.drop 3)
        else Except.error "Unexpected token in JSON"
      else if c == 'f' then
        if charsLeadWith ['a', 'l', 's', 'e'] cs then Except.ok (Json.bool false, cs.drop 4)
        else Except.error "Unexpected token in JSON"
      else if c == '"' then
        match parseStringBody (cs.length + 1) cs with
        | Except.error msg => Except.error msg
        | Except.ok (body, rest) => Except.ok (Json.str (String.mk body), rest)
      else if c == braceL then
        match skipWs cs with
        | c2 :: cs2 =>
          if c2 == braceR then Except.ok (Json.obj [], cs2)
          else parseMembers fuel (c2 :: cs2) []
        | [] => Except.error "Unexpected end of JSON input"
      else if c == '[' then
        match skipWs cs with
        | c2 :: cs2 =>
          if c2 == ']' then Except.ok (Json.arr [], cs2)
          else parseElements fuel (c2 :: cs2) []
        | [] => Except.error "Unexpected end of JSON input"
      else parseNumber (c :: cs)

/-- Parses the members of a JSON object after its opening brace, accumulating
parsed key-value pairs in source order. -/
def parseMembers : Nat → List Char → List (String × Json) →
    Except String (Json × List Char)
  | 0, _, _ => Except.error "JSON input too deeply nested"
  | Nat.succ fuel, s, acc =>
    match skipWs s with
    | [] => Except.error "Unexpected end of JSON input"
    | c :: cs =>
      if c == '"' then
        match parseStringBody (cs.length + 1) cs with
        | Except.error msg => Except.error msg
        | Except.ok (key, rest) =>
          match skipWs rest with
          | ':' :: rest2 =>
            match parseValue fuel rest2 with
            | Except.error msg => Except.error msg
            | Except.ok (v, rest3) =>
              let acc2 := acc ++ [(String.mk key, v)]
              match skipWs rest3 with
              | ',' :: rest4 => parseMembers fuel rest4 acc2
              | c2 :: rest4 =>
                if c2 == braceR then Except.ok (Json.obj acc2, rest4)
                else Except.error "Expected comma or closing brace in JSON object"
              | [] => Except.error "Unexpected end of JSON input"
          | _ => Except.error "Expected colon in JSON object"
      else Except.error "Expected property name in JSON object"

/-- Parses the elements of a JSON array after its opening bracket. -/
def parseElements : Nat → List Char → List Json → Except String (Json × List Char)
  | 0, _, _ => Except.error "JSON input too deeply nested"
  | Nat.succ fuel, s, acc =>
    match parseValue fuel s with
    | Except.error msg => Except.error msg
    | Except.ok (v, rest) =>
      match skipWs rest with
      | ',' :: rest2 => parseElements fuel rest2 (acc ++ [v])
      | ']' :: rest2 => Except.ok (Json.arr (acc ++ [v]), rest2)
      | _ => Except.error "Expected comma or closing bracket in JSON array"

end

/-- Embedding of JSON.parse: parses a whole string as one JSON value and
rejects trailing non-whitespace. -/
def parseJsonStr (s : String) : Except String Json :=
  match parseValue (2 * s.data.length + 8) s.data with
  | Except.error msg => Except.error msg
  | Except.ok (v, rest) =>
    match skipWs rest with
    | [] => Except.ok v
    | _ => Except.error "Unexpected non-whitespace character after JSON"

/-- Object member access with the last occurrence of a duplicated key taking
precedence, as in a JavaScript object built left to right; undefined members
and non-object values yield none. -/
def jsonGet : Json → String → Option Json
  | Json.obj fields, key =>
    (fields.reverse.find? (fun p => p.1 == key)).map (fun p => p.2)
  | _, _ => none

/-- Embedding of JavaScript `s.trim()` on the ASCII whitespace range. -/
def jsTrim (s : String) : String :=
  String.mk (((s.data.dropWhile jsonWs).reverse.dropWhile jsonWs).reverse)

/-- Result of the destructuring `const (mimeType, data) = JSON.parse(imageData)`
in createImagePart: each field is the looked-up member, none when undefined. -/
structure ImagePart where
  mimeType : Option Json
  data : Option Json

/-- Embedding of createImagePart: parse the serialized EncodedImage and build
the inline-data request part; a parse failure propagates as the thrown error,
and destructuring a parsed null throws. -/
def createImagePart (imageData : String) : Except String ImagePart :=
  match parseJsonStr imageData with
  | Except.error msg => Except.error msg
  | Except.ok Json.null =>
    Except.error "Cannot destructure property mimeType of JSON.parse result as it is null."
  | Except.ok j => Except.ok ⟨jsonGet j "mimeType", jsonGet j "data"⟩

/-- Inline image data of a response content part. -/
structure InlineData where
  mimeType : String
  data : String

/-- One content part of a response candidate. -/
structure RespPart where
  inlineData : Option InlineData

/-- Content of a response candidate. -/
structure Content where
  parts : Option (List RespPart)

/-- One candidate of a remote response. -/
structure Candidate where
  content : Option Content

/-- Remote response as read by the two service operations: candidate content
parts for image generation, aggregated text for trend analysis. -/
structure GenResponse where
  candidates : Option (List Candidate)
  text : Option String

/-- One part of an outgoing request: inline image data or instruction text. -/
inductive RequestPart where
  | inlineData (p : ImagePart)
  | text (s : String)

/-- Outgoing request: target model name and ordered content parts. -/
structure GenRequest where
  model : String
  parts : List RequestPart

/-- Instructional prompt of generateStyledImage (abbreviated; never inspected
by any property since the remote is abstract). -/
def styledImagePrompt : String :=
  "As an expert fashion photoshoot art director, generate a new, photorealistic image of the model from the first image wearing the clothing item from the second image."

/-- Instructional prompt of analyzeTrend (abbreviated; never inspected by any
property since the remote is abstract). -/
def analyzePrompt : String :=
  "You are a professional fashion trend forecaster. Analyze this image. Based on current global fashion trends, provide a trend score from 0 to 100 and a brief analysis."

/-- Request built by generateStyledImage: both image parts then the prompt. -/
def genStyledRequest (modelImagePart clothingImagePart : ImagePart) : GenRequest :=
  ⟨"gemini-2.5-flash-image",
    [RequestPart.inlineData modelImagePart, RequestPart.inlineData clothingImagePart,
      RequestPart.text styledImagePrompt]⟩

/-- Request built by analyzeTrend: the image part then the prompt. -/
def analyzeRequest (imagePart : ImagePart) : GenRequest :=
  ⟨"gemini-2.5-pro", [RequestPart.inlineData imagePart, RequestPart.text analyzePrompt]⟩

/-- Embedding of `response.candidates?.[0]?.content?.parts?.[0]`. -/
def firstCandidatePart (r : GenResponse) : Option RespPart :=
  match r.candidates with
  | some (c :: _) =>
    match c.content with
    | some content =>
      match content.parts with
      | some (p :: _) => some p
      | _ => none
    | none => none
  | _ => none

/-- Hexadecimal digit character for a value below 16. -/
def hexChar (n : Nat) : Char :=
  if n < 10 then Char.ofNat (48 + n) else Char.ofNat (87 + n)

/-- Escaping of one character inside a JSON.stringify string literal. -/
def jsonEscapeChar (c : Char) : List Char :=
  if c == '"' then ['\\', '"']
  else if c == '\\' then ['\\', '\\']
  else if c == '\n' then ['\\', 'n']
  else if c == '\r' then ['\\', 'r']
  else if c == '\t' then ['\\', 't']
  else if c.toNat == 8 then ['\\', 'b']
  else if c.toNat == 12 then ['\\', 'f']
  else if c.toNat < 32 then
    ['\\', 'u', '0', '0', hexChar (c.toNat / 16), hexChar (c.toNat % 16)]
  else [c]

/-- Serialization of a string as a quoted JSON string literal. -/
def jsonQuote (s : String) : String :=
  String.mk ('"' :: (s.data.map jsonEscapeChar).flatten ++ ['"'])

/-- Embedding of the `JSON.stringify(\x7b mimeType, data \x7d)` success value
of generateStyledImage. -/
def stringifyEncodedImage (mimeType data : String) : String :=
  "\x7b\"mimeType\":" ++ jsonQuote mimeType ++ ",\"data\":" ++ jsonQuote data ++ "\x7d"

/-- Message of the semantic failure thrown by generateStyledImage when the
response carries no usable image. -/
def noImageMessage : String :=
  "Could not generate styled image. The API did not return an image."

/-- Message of the semantic failure thrown by analyzeTrend when the textual
payload cannot be used. -/
def analyzeFailMessage : String :=
  "Failed to analyze trend. The API returned an invalid format."

/-- Embedding of generateStyledImage: the retried thunk parses both serialized
images, performs the remote call, and serializes the inline data of the first
part of the first candidate; without one it throws the semantic failure.  The
remote service is a function from the attempt index and the built request to a
transport outcome. -/
def generateStyledImage (remote : Nat → GenRequest → Except String GenResponse)
    (modelImage clothingImage : String) : List RetryEvent × Except ApiError String :=
  callGeminiWithRetry (fun attempt =>
    match createImagePart modelImage with
    | Except.error msg => Except.error msg
    | Except.ok modelImagePart =>
      match createImagePart clothingImage with
      | Except.error msg => Except.error msg
      | Except.ok clothingImagePart =>
        match remote attempt (genStyledRequest modelImagePart clothingImagePart) with
        | Except.error msg => Except.error msg
        | Except.ok response =>
          match firstCandidatePart response with
          | some firstPart =>
            match firstPart.inlineData with
            | some inline =>
              Except.ok (stringifyEncodedImage inline.mimeType inline.data)
            | none => Except.error noImageMessage
          | none => Except.error noImageMessage)

/-- Embedding of analyzeTrend: the retried thunk parses the serialized image,
performs the remote call, trims the textual payload and parses it as JSON,
returning the parsed value unchanged (the source casts it without runtime
validation); an absent text or a parse failure throws the semantic failure,
as both raise inside the try block of the source. -/
def analyzeTrend (remote : Nat → GenRequest → Except String GenResponse)
    (generatedImage : String) : List RetryEvent × Except ApiError Json :=
  callGeminiWithRetry (fun attempt =>
    match createImagePart generatedImage with
    | Except.error msg => Except.error msg
    | Except.ok imagePart =>
      match remote attempt (analyzeRequest imagePart) with
      | Except.error msg => Except.error msg
      | Except.ok response =>
        match response.text with
        | none => Except.error analyzeFailMessage
        | some t =>
          match parseJsonStr (jsTrim t) with
          | Except.error _ => Except.error analyzeFailMessage
          | Except.ok result => Except.ok result)

/-- Modelled from the spec: the success condition of §4.2, "the remote
response must contain at least one content part with inline image data",
stated over the whole candidate list for comparison with the code. -/
def responseHasImagePart (r : GenResponse) : Bool :=
  match r.candidates with
  | none => false
  | some cs =>
    cs.any fun c =>
      match c.content with
      | none => false
      | some content =>
        match content.parts with
        | none => false
        | some ps => ps.any fun p => p.inlineData.isSome

/-- Value of a JSON number when it is an integer (nonnegative exponent). -/
def jsonAsInt : Json → Option Int
  | Json.num m e => if 0 ≤ e then some (m * 10 ^ e.toNat) else none
  | _ => none

/-- Declared response schema of analyzeTrend read as a checker: an object with
a required integer score in [0, 100] and a required string analysis. -/
def matchesTrendSchema (j : Json) : Bool :=
  (match jsonGet j "score" with
    | some v =>
      match jsonAsInt v with
      | some n => decide (0 ≤ n ∧ n ≤ 100)
      | none => false
    | none => false) &&
  (match jsonGet j "analysis" with
    | some (Json.str _) => true
    | _ => false)

/-- Response whose first candidate holds a text-only first part and an image
only in its second part. -/
def lateImageResponse : GenResponse :=
  ⟨some [⟨some ⟨some [⟨none⟩, ⟨some ⟨"image/png", "abc"⟩⟩]⟩⟩], none⟩

/-- Response whose first candidate carries inline image data in its first
part. -/
def firstImageResponse : GenResponse :=
  ⟨some [⟨some ⟨some [⟨some ⟨"image/png", "abc"⟩⟩]⟩⟩], none⟩

/-- Textual payload of the witness scenario for C8. -/
def trendJsonText : String :=
  " \x7b\"score\": 72, \"analysis\": \"Bold streetwear mix.\"\x7d "

/-- Parsed value of the witness scenario for C8. -/
def trendJsonValue : Json :=
  Json.obj [("score", Json.num 72 0), ("analysis", Json.str "Bold streetwear mix.")]

lemma retryGo_calls_le {α : Type} (f : Nat → Except String α) :
    ∀ fuel attempt, countCalls (retryGo f attempt fuel).1 ≤ fuel := by
  intro fuel
  induction fuel with
  | zero => intro attempt; simp [retryGo, countCalls]
  | succ fuel ih =>
    intro attempt
    cases hcall : f attempt with
    | ok v => simp [retryGo, hcall, countCalls]
    | error msg =>
      by_cases hinv : isInvalidInputMsg (jsToLower msg) = true
      · simp [retryGo, hcall, hinv, countCalls]
      · by_cases hretry : ((isRateLimitMsg (jsToLower msg) || isServerErrorMsg (jsToLower msg))
            && decide (attempt < MAX_RETRIES)) = true
        · simp only [retryGo, hcall, hinv, hretry, if_true, if_false, Bool.false_eq_true]
          simp only [countCalls]
          exact Nat.add_le_add_right (ih (attempt + 1)) 1
        · by_cases hrl : isRateLimitMsg (jsToLower msg) = true
          · have hnlt : ¬ attempt < MAX_RETRIES := fun hlt => hretry (by simp [hrl, hlt])
            simp [retryGo, hcall, hinv, hretry, hrl, hnlt, countCalls]
          · by_cases hsv : isServerErrorMsg (jsToLower msg) = true
            · have hnlt : ¬ attempt < MAX_RETRIES := fun hlt => hretry (by simp [hsv, hlt])
              simp [retryGo, hcall, hinv, hretry, hrl, hsv, hnlt, countCalls]
            · simp [retryGo, hcall, hinv, hretry, hrl, hsv, countCalls]

lemma retryGo_shape {α : Type} (f : Nat → Except String α) :
    ∀ fuel attempt, ∃ n,
      onRetrySeq (retryGo f attempt fuel).1 = List.range' attempt n ∧
      sleepSeq (retryGo f attempt fuel).1 =
        (List.range' attempt n).map (fun k => 1000 * 2 ^ (k - 1)) ∧
      (n = 0 ∨ attempt + n ≤ MAX_RETRIES) ∧
      retryPairsOk (retryGo f attempt fuel).1 = true := by
  intro fuel
  induction fuel with
  | zero =>
    intro attempt
    exact ⟨0, by simp [retryGo, onRetrySeq, sleepSeq, retryPairsOk]⟩
  | succ fuel ih =>
    intro attempt
    cases hcall : f attempt with
    | ok v =>
      exact ⟨0, by simp [retryGo, hcall, onRetrySeq, sleepSeq, retryPairsOk]⟩
    | error msg =>
      by_cases hinv : isInvalidInputMsg (jsToLower msg) = true
      · exact ⟨0, by simp [retryGo, hcall, hinv, onRetrySeq, sleepSeq, retryPairsOk]⟩
      · by_cases hretry : ((isRateLimitMsg (jsToLower msg) || isServerErrorMsg (jsToLower msg))
            && decide (attempt < MAX_RETRIES)) = true
        · obtain ⟨n, hon, hsl, hbound, hpair⟩ := ih (attempt + 1)
          refine ⟨n + 1, ?_, ?_, ?_, ?_⟩
          · simp only [retryGo, hcall, hinv, hretry, if_true, if_false, Bool.false_eq_true]
            simp [onRetrySeq, hon, List.range'_succ]
          · simp only [retryGo, hcall, hinv, hretry, if_true, if_false, Bool.false_eq_true]
            simp [sleepSeq, hsl, List.range'_succ]
          · right
            have hlt : attempt < MAX_RETRIES := by
              have := (Bool.and_eq_true _ _).mp hretry
              exact of_decide_eq_true this.2
            rcases hbound with h0 | hle
            · omega
            · omega
          · simp only [retryGo, hcall, hinv, hretry, if_true, if_false, Bool.false_eq_true]
            simp [retryPairsOk, hpair]
        · by_cases hrl : isRateLimitMsg (jsToLower msg) = true
          · have hnlt : ¬ attempt < MAX_RETRIES := fun hlt => hretry (by simp [hrl, hlt])
            exact ⟨0, by simp [retryGo, hcall, hinv, hretry, hrl, hnlt, onRetrySeq, sleepSeq,
              retryPairsOk]⟩
          · by_cases hsv : isServerErrorMsg (jsToLower msg) = true
            · have hnlt : ¬ attempt < MAX_RETRIES := fun hlt => hretry (by simp [hsv, hlt])
              exact ⟨0, by simp [retryGo, hcall, hinv, hretry, hrl, hsv, hnlt, onRetrySeq,
                sleepSeq, retryPairsOk]⟩
            · exact ⟨0, by simp [retryGo, hcall, hinv, hretry, hrl, hsv, onRetrySeq, sleepSeq,
                retryPairsOk]⟩

/-- C1: when every attempt fails with a rate-limit message (no invalid-input
marker), callGeminiWithRetry invokes the thunk exactly 3 times and rejects
with RateLimitError; when every attempt fails with a message matching only
the server-error substrings, it invokes the thunk exactly 3 times and rejects
with ServerError. -/
theorem callGeminiWithRetry_exhausts_then_classified {α : Type}
    (f g : Nat → Except String α)
    (hf : ∀ k, 1 ≤ k → k ≤ MAX_RETRIES → ∃ m, f k = Except.error m ∧
      isRateLimitMsg (jsToLower m) = true ∧ isInvalidInputMsg (jsToLower m) = false)
    (hg : ∀ k, 1 ≤ k → k ≤ MAX_RETRIES → ∃ m, g k = Except.error m ∧
      isServerErrorMsg (jsToLower m) = true ∧ isRateLimitMsg (jsToLower m) = false ∧
      isInvalidInputMsg (jsToLower m) = false) :
    ((callGeminiWithRetry f).2 = Except.error rateLimitError ∧
      countCalls (callGeminiWithRetry f).1 = 3) ∧
    ((callGeminiWithRetry g).2 = Except.error serverError ∧
      countCalls (callGeminiWithRetry g).1 = 3) := by
  obtain ⟨m1, h1, hr1, hi1⟩ := hf 1 (by norm_num) (by decide)
  obtain ⟨m2, h2, hr2, hi2⟩ := hf 2 (by norm_num) (by decide)
  obtain ⟨m3, h3, hr3, hi3⟩ := hf 3 (by norm_num) (by decide)
  obtain ⟨w1, g1, gs1, gr1, gi1⟩ := hg 1 (by norm_num) (by decide)
  obtain ⟨w2, g2, gs2, gr2, gi2⟩ := hg 2 (by norm_num) (by decide)
  obtain ⟨w3, g3, gs3, gr3, gi3⟩ := hg 3 (by norm_num) (by decide)
  constructor
  · constructor <;>
      simp [callGeminiWithRetry, MAX_RETRIES, retryGo, h1, hr1, hi1, h2, hr2, hi2, h3, hr3,
        hi3, countCalls]
  · constructor <;>
      simp [callGeminiWithRetry, MAX_RETRIES, retryGo, g1, gs1, gr1, gi1, g2, gs2, gr2, gi2,
        g3, gs3, gr3, gi3, countCalls]

/-- Witness for C1 at the constant failure messages "429" and "503". -/
theorem callGeminiWithRetry_exhausts_then_classified_witness :
    ((callGeminiWithRetry (fun _ => (Except.error "429" : Except String Nat))).2 =
        Except.error rateLimitError ∧
      countCalls (callGeminiWithRetry (fun _ => (Except.error "429" : Except String Nat))).1 =
        3) ∧
    ((callGeminiWithRetry (fun _ => (Except.error "503" : Except String Nat))).2 =
        Except.error serverError ∧
      countCalls (callGeminiWithRetry (fun _ => (Except.error "503" : Except String Nat))).1 =
        3) :=
  callGeminiWithRetry_exhausts_then_classified _ _
    (fun _ _ _ => ⟨"429", rfl, rfl, rfl⟩)
    (fun _ _ _ => ⟨"503", rfl, rfl, rfl, rfl⟩)

/-- C2: a failure whose message carries an invalid-input marker makes the
orchestrator reject at once with the classified InvalidInputError: any loop
iteration that observes it stops with a single thunk call and no onRetry, and
when the first attempt fails that way the whole invocation performs exactly
one thunk call and no onRetry. -/
theorem invalid_input_fails_immediately {α : Type} (f : Nat → Except String α) (m : String)
    (hm : isInvalidInputMsg (jsToLower m) = true) :
    (∀ k fuel, f k = Except.error m →
      retryGo f k (fuel + 1) =
        ([RetryEvent.call k], Except.error (invalidInputError invalidImagesRetryMessage))) ∧
    (f 1 = Except.error m →
      callGeminiWithRetry f =
        ([RetryEvent.call 1], Except.error (invalidInputError invalidImagesRetryMessage))) := by
  have hstep : ∀ k fuel, f k = Except.error m →
      retryGo f k (fuel + 1) =
        ([RetryEvent.call k], Except.error (invalidInputError invalidImagesRetryMessage)) := by
    intro k fuel hk
    simp [retryGo, hk, hm]
  exact ⟨hstep, fun h1 => hstep 1 2 h1⟩

/-- Witness for C2 at the failure message "400 Bad Request". -/
theorem invalid_input_fails_immediately_witness :
    isInvalidInputMsg (jsToLower "400 Bad Request") = true ∧
    callGeminiWithRetry (fun _ => (Except.error "400 Bad Request" : Except String Nat)) =
      ([RetryEvent.call 1], Except.error (invalidInputError invalidImagesRetryMessage)) :=
  ⟨rfl, (invalid_input_fails_immediately (fun _ => Except.error "400 Bad Request")
    "400 Bad Request" rfl).2 rfl⟩

/-- C3: when every attempt before k fails with a retriable (rate-limit or
server-error, non-invalid) message and attempt k succeeds, callGeminiWithRetry
returns that result after exactly k thunk calls, the trace ends at that call
(so no onRetry follows the success), and every execution performs at most
MAX_RETRIES thunk calls. -/
theorem callGeminiWithRetry_success_at_k {α : Type} (f : Nat → Except String α)
    (k : Nat) (v : α) (hk1 : 1 ≤ k) (hk3 : k ≤ MAX_RETRIES)
    (hfail : ∀ j, 1 ≤ j → j < k → ∃ m, f j = Except.error m ∧
      (isRateLimitMsg (jsToLower m) || isServerErrorMsg (jsToLower m)) = true ∧
      isInvalidInputMsg (jsToLower m) = false)
    (hsucc : f k = Except.ok v) :
    (callGeminiWithRetry f).2 = Except.ok v ∧
    countCalls (callGeminiWithRetry f).1 = k ∧
    (callGeminiWithRetry f).1.getLast? = some (RetryEvent.call k) ∧
    ∀ (g : Nat → Except String α), countCalls (callGeminiWithRetry g).1 ≤ MAX_RETRIES := by
  have hbound : ∀ (g : Nat → Except String α),
      countCalls (callGeminiWithRetry g).1 ≤ MAX_RETRIES :=
    fun g => retryGo_calls_le g MAX_RETRIES 1
  have hcases : k = 1 ∨ k = 2 ∨ k = 3 := by
    rw [show MAX_RETRIES = 3 from rfl] at hk3; omega
  rcases hcases with hk | hk | hk
  · subst hk
    refine ⟨?_, ?_, ?_, hbound⟩ <;>
      simp [callGeminiWithRetry, MAX_RETRIES, retryGo, hsucc, countCalls]
  · subst hk
    obtain ⟨m1, h1, hro1, hi1⟩ := hfail 1 (by norm_num) (by norm_num)
    refine ⟨?_, ?_, ?_, hbound⟩ <;>
      simp [callGeminiWithRetry, MAX_RETRIES, retryGo, h1, hro1, hi1, hsucc, countCalls]
  · subst hk
    obtain ⟨m1, h1, hro1, hi1⟩ := hfail 1 (by norm_num) (by norm_num)
    obtain ⟨m2, h2, hro2, hi2⟩ := hfail 2 (by norm_num) (by norm_num)
    refine ⟨?_, ?_, ?_, hbound⟩ <;>
      simp [callGeminiWithRetry, MAX_RETRIES, retryGo, h1, hro1, hi1, h2, hro2, hi2, hsucc,
        countCalls]

/-- Witness for C3: two "503" failures then success with 42 on attempt 3. -/
theorem callGeminiWithRetry_success_at_k_witness :
    (callGeminiWithRetry (fun j => if j < 3 then (Except.error "503" : Except String Nat)
        else Except.ok 42)).2 = Except.ok 42 ∧
    countCalls (callGeminiWithRetry (fun j => if j < 3 then
        (Except.error "503" : Except String Nat) else Except.ok 42)).1 = 3 ∧
    (callGeminiWithRetry (fun j => if j < 3 then (Except.error "503" : Except String Nat)
        else Except.ok 42)).1.getLast? = some (RetryEvent.call 3) ∧
    ∀ (g : Nat → Except String Nat), countCalls (callGeminiWithRetry g).1 ≤ MAX_RETRIES :=
  callGeminiWithRetry_success_at_k _ 3 42 (by norm_num) (by decide)
    (fun j _ hj3 => ⟨"503", by simp [hj3], rfl, rfl⟩)
    (by norm_num)

/-- C4: in every invocation the requested backoff delays are exactly
1000 * 2 ^ (k - 1) milliseconds for the attempts k passed to onRetry (1000ms
after attempt 1, 2000ms after attempt 2), so the requested delays are a
prefix of [1000, 2000] and sum to at most 3000ms. -/
theorem backoff_delay_formula {α : Type} (f : Nat → Except String α) :
    sleepSeq (callGeminiWithRetry f).1 =
      (onRetrySeq (callGeminiWithRetry f).1).map (fun k => 1000 * 2 ^ (k - 1)) ∧
    (sleepSeq (callGeminiWithRetry f).1 = [] ∨
      sleepSeq (callGeminiWithRetry f).1 = [1000] ∨
      sleepSeq (callGeminiWithRetry f).1 = [1000, 2000]) ∧
    (sleepSeq (callGeminiWithRetry f).1).sum ≤ 3000 := by
  obtain ⟨n, hon, hsl, hbound, hpair⟩ := retryGo_shape f MAX_RETRIES 1
  simp only [callGeminiWithRetry]
  have hn : n ≤ 2 := by
    rcases hbound with h | h
    · omega
    · rw [show MAX_RETRIES = 3 from rfl] at h; omega
  refine ⟨by rw [hon, hsl], ?_, ?_⟩
  · interval_cases n
    · left; rw [hsl]; rfl
    · right; left; rw [hsl]; rfl
    · right; right; rw [hsl]; rfl
  · interval_cases n
    · rw [hsl]; simp
    · rw [hsl]; simp
    · rw [hsl]; simp [List.range']

/-- C5: in every invocation each decision to retry emits exactly one onRetry
with the 1-based attempt index immediately followed by its backoff sleep of
1000 * 2 ^ (attempt - 1) ms, and conversely every sleep is preceded by its
onRetry, so onRetry and sleep counts agree. -/
theorem onRetry_immediately_before_sleep {α : Type} (f : Nat → Except String α) :
    retryPairsOk (callGeminiWithRetry f).1 = true ∧
    (onRetrySeq (callGeminiWithRetry f).1).length =
      (sleepSeq (callGeminiWithRetry f).1).length := by
  obtain ⟨n, hon, hsl, hbound, hpair⟩ := retryGo_shape f MAX_RETRIES 1
  simp only [callGeminiWithRetry]
  exact ⟨hpair, by rw [hon, hsl]; simp⟩

/-- C6: in every invocation the integers passed to onRetry form the sequence
[], [1], or [1, 2]: strictly increasing from 1 with length at most 2. -/
theorem onRetry_sequence_shape {α : Type} (f : Nat → Except String α) :
    onRetrySeq (callGeminiWithRetry f).1 = [] ∨
    onRetrySeq (callGeminiWithRetry f).1 = [1] ∨
    onRetrySeq (callGeminiWithRetry f).1 = [1, 2] := by
  obtain ⟨n, hon, hsl, hbound, hpair⟩ := retryGo_shape f MAX_RETRIES 1
  simp only [callGeminiWithRetry]
  have hn : n ≤ 2 := by
    rcases hbound with h | h
    · omega
    · rw [show MAX_RETRIES = 3 from rfl] at h; omega
  interval_cases n
  · left; rw [hon]; rfl
  · right; left; rw [hon]; rfl
  · right; right; rw [hon]; rfl

/-- C9: within one attempt the invalid-input classification takes precedence
over rate-limit (a message matching both "400" and "429" rejects at once as
InvalidInputError), and on the final attempt rate-limit takes precedence over
server-error (a last message matching both classes rejects as RateLimitError,
never ServerError). -/
theorem classification_precedence {α : Type} (f g : Nat → Except String α) (m mLast : String)
    (hmInv : isInvalidInputMsg (jsToLower m) = true)
    (hmRate : isRateLimitMsg (jsToLower m) = true)
    (hf1 : f 1 = Except.error m)
    (hg12 : ∀ k, 1 ≤ k → k < MAX_RETRIES → ∃ w, g k = Except.error w ∧
      (isRateLimitMsg (jsToLower w) || isServerErrorMsg (jsToLower w)) = true ∧
      isInvalidInputMsg (jsToLower w) = false)
    (hg3 : g 3 = Except.error mLast)
    (hlr : isRateLimitMsg (jsToLower mLast) = true)
    (hls : isServerErrorMsg (jsToLower mLast) = true)
    (hli : isInvalidInputMsg (jsToLower mLast) = false) :
    (callGeminiWithRetry f).2 =
      Except.error (invalidInputError invalidImagesRetryMessage) ∧
    (callGeminiWithRetry g).2 = Except.error rateLimitError := by
  obtain ⟨w1, hw1, hro1, hi1⟩ := hg12 1 (by norm_num) (by decide)
  obtain ⟨w2, hw2, hro2, hi2⟩ := hg12 2 (by norm_num) (by decide)
  constructor
  · simp [callGeminiWithRetry, MAX_RETRIES, retryGo, hf1, hmInv]
  · simp [callGeminiWithRetry, MAX_RETRIES, retryGo, hw1, hro1, hi1, hw2, hro2, hi2, hg3,
      hlr, hls, hli]

/-- Witness for C9: first attempt failing with "400 and 429", and a run whose
last attempt fails with "quota 503". -/
theorem classification_precedence_witness :
    (callGeminiWithRetry (fun _ => (Except.error "400 and 429" : Except String Nat))).2 =
      Except.error (invalidInputError invalidImagesRetryMessage) ∧
    (callGeminiWithRetry (fun k => if 3 ≤ k then (Except.error "quota 503" : Except String Nat)
        else Except.error "503")).2 = Except.error rateLimitError :=
  classification_precedence _ _ "400 and 429" "quota 503" rfl rfl rfl
    (fun k _ hk3 => ⟨"503", by
      rw [show MAX_RETRIES = 3 from rfl] at hk3
      simp [Nat.not_le.mpr hk3], rfl, rfl⟩)
    (by norm_num) rfl rfl rfl

/-- C7 (amended): under a transport-successful response, generateStyledImage
resolves with the JSON serialization of the inline data of the FIRST part of
the FIRST candidate when that part carries inline data, and otherwise rejects
with the generic unclassified no-image error after a single thunk call (so
the semantic failure is not retried). -/
theorem generateStyledImage_uses_first_part
    (remote : Nat → GenRequest → Except String GenResponse)
    (img1 img2 : String) (p1 p2 : ImagePart) (r : GenResponse)
    (h1 : createImagePart img1 = Except.ok p1)
    (h2 : createImagePart img2 = Except.ok p2)
    (hr : remote 1 (genStyledRequest p1 p2) = Except.ok r) :
    (∀ inl, (firstCandidatePart r).bind (fun p => p.inlineData) = some inl →
      generateStyledImage remote img1 img2 =
        ([RetryEvent.call 1], Except.ok (stringifyEncodedImage inl.mimeType inl.data))) ∧
    ((firstCandidatePart r).bind (fun p => p.inlineData) = none →
      generateStyledImage remote img1 img2 =
        ([RetryEvent.call 1], Except.error (apiError noImageMessage))) := by
  constructor
  · intro inl hinl
    rcases hfp : firstCandidatePart r with _ | fp
    · rw [hfp] at hinl; simp at hinl
    · rw [hfp] at hinl
      simp at hinl
      simp [generateStyledImage, callGeminiWithRetry, MAX_RETRIES, retryGo, h1, h2, hr, hfp,
        hinl]
  · intro hnone
    have hcls1 : isInvalidInputMsg (jsToLower noImageMessage) = false := by decide
    have hcls2 : isRateLimitMsg (jsToLower noImageMessage) = false := by decide
    have hcls3 : isServerErrorMsg (jsToLower noImageMessage) = false := by decide
    rcases hfp : firstCandidatePart r with _ | fp
    · simp [generateStyledImage, callGeminiWithRetry, MAX_RETRIES, retryGo, h1, h2, hr, hfp,
        hcls1, hcls2, hcls3]
    · rw [hfp] at hnone
      simp at hnone
      simp [generateStyledImage, callGeminiWithRetry, MAX_RETRIES, retryGo, h1, h2, hr, hfp,
        hnone, hcls1, hcls2, hcls3]

/-- Counterexample to C7 as stated: this response contains a content part with
inline image data, yet generateStyledImage rejects with the no-image error,
because the code only inspects the first part of the first candidate. -/
theorem generateStyledImage_first_part_counterexample :
    responseHasImagePart lateImageResponse = true ∧
    (generateStyledImage (fun _ _ => Except.ok lateImageResponse)
        "\x7b\x7d" "\x7b\x7d").2 = Except.error (apiError noImageMessage) ∧
    countCalls (generateStyledImage (fun _ _ => Except.ok lateImageResponse)
        "\x7b\x7d" "\x7b\x7d").1 = 1 :=
  ⟨rfl, rfl, rfl⟩

/-- Witness for the amended C7 at concrete inputs. -/
theorem generateStyledImage_uses_first_part_witness :
    createImagePart "\x7b\x7d" = Except.ok ⟨none, none⟩ ∧
    (firstCandidatePart firstImageResponse).bind (fun p => p.inlineData) =
      some ⟨"image/png", "abc"⟩ ∧
    generateStyledImage (fun _ _ => Except.ok firstImageResponse) "\x7b\x7d" "\x7b\x7d" =
      ([RetryEvent.call 1], Except.ok (stringifyEncodedImage "image/png" "abc")) :=
  ⟨rfl, rfl,
    (generateStyledImage_uses_first_part (fun _ _ => Except.ok firstImageResponse)
        "\x7b\x7d" "\x7b\x7d" ⟨none, none⟩ ⟨none, none⟩ firstImageResponse
        rfl rfl rfl).1 ⟨"image/png", "abc"⟩ rfl⟩

/-- C8 (amended): under a transport-successful response whose textual payload
is present, analyzeTrend resolves with exactly the JSON value the trimmed
text parses to — with no local validation against the declared schema — and
rejects with the generic unclassified semantic error after a single thunk
call exactly when the trimmed text fails to parse. -/
theorem analyzeTrend_parse_determines_result
    (remote : Nat → GenRequest → Except String GenResponse)
    (img : String) (p : ImagePart) (r : GenResponse) (t : String)
    (h1 : createImagePart img = Except.ok p)
    (hr : remote 1 (analyzeRequest p) = Except.ok r)
    (ht : r.text = some t) :
    (∀ v, parseJsonStr (jsTrim t) = Except.ok v →
      analyzeTrend remote img = ([RetryEvent.call 1], Except.ok v)) ∧
    (∀ e, parseJsonStr (jsTrim t) = Except.error e →
      analyzeTrend remote img =
        ([RetryEvent.call 1], Except.error (apiError analyzeFailMessage))) := by
  constructor
  · intro v hv
    simp [analyzeTrend, callGeminiWithRetry, MAX_RETRIES, retryGo, h1, hr, ht, hv]
  · intro e he
    have hcls1 : isInvalidInputMsg (jsToLower analyzeFailMessage) = false := by decide
    have hcls2 : isRateLimitMsg (jsToLower analyzeFailMessage) = false := by decide
    have hcls3 : isServerErrorMsg (jsToLower analyzeFailMessage) = false := by decide
    simp [analyzeTrend, callGeminiWithRetry, MAX_RETRIES, retryGo, h1, hr, ht, he,
      hcls1, hcls2, hcls3]

/-- Counterexample to C8 as stated: the empty JSON object parses but does not
match the declared schema, yet analyzeTrend resolves with it instead of
rejecting, because the source performs no runtime schema validation. -/
theorem analyzeTrend_schema_counterexample :
    matchesTrendSchema (Json.obj []) = false ∧
    (analyzeTrend (fun _ _ => Except.ok ⟨none, some "\x7b\x7d"⟩) "\x7b\x7d").2 =
      Except.ok (Json.obj []) :=
  ⟨rfl, rfl⟩



/-- Witness for the amended C8 at the schema-conforming scenario payload. -/
theorem analyzeTrend_parse_determines_result_witness :
    parseJsonStr (jsTrim trendJsonText) = Except.ok trendJsonValue ∧
    matchesTrendSchema trendJsonValue = true ∧
    analyzeTrend (fun _ _ => Except.ok ⟨none, some trendJsonText⟩) "\x7b\x7d" =
      ([RetryEvent.call 1], Except.ok trendJsonValue) :=
  ⟨rfl, rfl,
    (analyzeTrend_parse_determines_result (fun _ _ => Except.ok ⟨none, some trendJsonText⟩)
      "\x7b\x7d" ⟨none, none⟩ ⟨none, some trendJsonText⟩ trendJsonText rfl rfl rfl).1
      trendJsonValue rfl⟩

/-- C10: an image argument that is not a valid JSON string makes the retried
thunk throw before the remote call (the conclusion holds for every remote
service function), and the parse failure passes through the orchestrator
classification like any failure: when its message carries no classification
substring the operation rejects at once with the base ApiError wrapping that
message, with no retry. -/
theorem parse_failure_precedes_remote_call (e : String)
    (hc1 : isRateLimitMsg (jsToLower e) = false)
    (hc2 : isServerErrorMsg (jsToLower e) = false)
    (hc3 : isInvalidInputMsg (jsToLower e) = false) :
    (∀ (remote : Nat → GenRequest → Except String GenResponse) img1 img2,
      createImagePart img1 = Except.error e →
      generateStyledImage remote img1 img2 =
        ([RetryEvent.call 1], Except.error (apiError e))) ∧
    (∀ (remote : Nat → GenRequest → Except String GenResponse) img1 img2 p1,
      createImagePart img1 = Except.ok p1 → createImagePart img2 = Except.error e →
      generateStyledImage remote img1 img2 =
        ([RetryEvent.call 1], Except.error (apiError e))) ∧
    (∀ (remote : Nat → GenRequest → Except String GenResponse) img,
      createImagePart img = Except.error e →
      analyzeTrend remote img =
        ([RetryEvent.call 1], Except.error (apiError e))) := by
  refine ⟨?_, ?_, ?_⟩
  · intro remote img1 img2 h
    simp [generateStyledImage, callGeminiWithRetry, MAX_RETRIES, retryGo, h, hc1, hc2, hc3]
  · intro remote img1 img2 p1 hok h
    simp [generateStyledImage, callGeminiWithRetry, MAX_RETRIES, retryGo, hok, h, hc1, hc2,
      hc3]
  · intro remote img h
    simp [analyzeTrend, callGeminiWithRetry, MAX_RETRIES, retryGo, h, hc1, hc2, hc3]

/-- Witness for C10 at the invalid JSON string "oops", whose parse error
message carries no classification substring; the remote stub fails loudly so
the conclusion visibly never consults it. -/
theorem parse_failure_precedes_remote_call_witness :
    createImagePart "oops" = Except.error "Unexpected token in JSON" ∧
    generateStyledImage (fun _ _ => Except.error "boom") "oops" "\x7b\x7d" =
      ([RetryEvent.call 1], Except.error (apiError "Unexpected token in JSON")) ∧
    generateStyledImage (fun _ _ => Except.error "boom") "\x7b\x7d" "oops" =
      ([RetryEvent.call 1], Except.error (apiError "Unexpected token in JSON")) ∧
    analyzeTrend (fun _ _ => Except.error "boom") "oops" =
      ([RetryEvent.call 1], Except.error (apiError "Unexpected token in JSON")) := by
  have h := parse_failure_precedes_remote_call "Unexpected token in JSON" rfl rfl rfl
  exact ⟨rfl, h.1 _ _ _ rfl, h.2.1 _ "\x7b\x7d" "oops" ⟨none, none⟩ rfl rfl, h.2.2 _ _ rfl⟩
